import Mathlib

/-!
Verification of the watchr recursive filesystem watcher
(source file src/source/index.js) against its specification.

The development is a shallow embedding of the JavaScript source:
pure functions become Lean functions, the per-path watcher object
becomes an inductive tree type, event emission becomes an explicit
event list, filesystem and OS-backend interaction becomes an oracle
record, and fallible JavaScript code returns Except.
-/

namespace Watchr

/-! ## Stat snapshots -/

/-- The kind of a filesystem entry, as reported by a stat call. -/
inductive FileKind where
  | file
  | directory
  | symlink
  | other
deriving DecidableEq, Repr, Inhabited

/-- A stat snapshot. Node fs.Stats objects carry the time fields as Date
values and the remaining fields as numbers; all fields are always present
and non-null on a real fs.Stats object. Times are modeled as Nat. -/
structure Stat where
  atime : Nat
  ctime : Nat
  mtime : Nat
  birthtime : Nat
  size : Nat
  ino : Nat
  mode : Nat
  kind : FileKind
deriving DecidableEq, Repr

/-- The comparison key used by statChanged: a deep copy of the snapshot with
the atime and ctime keys deleted (source lines 65-71). Deleting both keys on
both copies is modeled by zeroing both fields, so record equality of the
results coincides with equality of the two JSON serializations. -/
def eraseTimes (s : Stat) : Stat :=
  { s with atime := 0, ctime := 0 }

/-- Watcher.statChanged (source lines 55-88). Null arguments model a missing
snapshot (file not yet created, or already deleted). The JSON.stringify
comparison of the two dereferenced copies with atime and ctime deleted is
modeled by record equality of the eraseTimes projections. -/
def statChanged (old current : Option Stat) : Bool :=
  let hasOld := old.isSome
  let hasCurrent := current.isSome
  if hasOld ≠ hasCurrent then
    true
  else
    match old, current with
    | some o, some c =>
      if eraseTimes o = eraseTimes c then false else true
    | _, _ => false

/-! ## Heap model of statChanged

The source mutates JavaScript objects: it rebinds the local variables to
deep copies produced by extendr.dereferenceJSON and then deletes the atime
and ctime keys of the copies. To state that the caller visible argument
objects are untouched, we model a small object heap: addresses are list
indices, a stat argument is either null or an address, copies are fresh
allocations at the end of the heap, and key deletion is an in-place store.
-/

/-- A stat object on the heap. The atime and ctime keys can be deleted, so
they are Option valued here: none models an absent key. -/
structure JStat where
  atime : Option Nat
  ctime : Option Nat
  mtime : Nat
  birthtime : Nat
  size : Nat
  ino : Nat
  mode : Nat
  kind : FileKind
deriving DecidableEq, Repr, Inhabited

/-- The object heap: addresses are indices into the list. -/
abbrev Heap := List JStat

/-- Read the object at an address (default object for a dangling address). -/
def heapGet (h : Heap) (a : Nat) : JStat :=
  h.getD a default

/-- `if ( old.atime != null ) delete old.atime` on the object at address a. -/
def delAtime (h : Heap) (a : Nat) : Heap :=
  if (heapGet h a).atime.isSome then h.set a { heapGet h a with atime := none } else h

/-- `if ( old.ctime != null ) delete old.ctime` on the object at address a. -/
def delCtime (h : Heap) (a : Nat) : Heap :=
  if (heapGet h a).ctime.isSome then h.set a { heapGet h a with ctime := none } else h

/-- Watcher.statChanged over the object heap (source lines 55-88).
Arguments are null or heap addresses. The dereferenceJSON calls allocate
fresh deep copies at the end of the heap; the deletes then mutate only the
copies. Returns the heap after the call together with the result. -/
def statChangedH (h : Heap) (old current : Option Nat) : Heap × Bool :=
  let hasOld := old.isSome
  let hasCurrent := current.isSome
  if hasOld ≠ hasCurrent then
    (h, true)
  else
    match old, current with
    | some a, some b =>
      -- old = extendr.dereferenceJSON(old)
      let o := heapGet h a
      let h1 := h ++ [o]
      let a1 := h.length
      -- current = extendr.dereferenceJSON(current)
      let c := heapGet h1 b
      let h2 := h1 ++ [c]
      let b1 := h1.length
      -- delete the time keys on the two copies
      let h3 := delCtime (delAtime h2 a1) a1
      let h4 := delCtime (delAtime h3 b1) b1
      (h4, if heapGet h4 a1 = heapGet h4 b1 then false else true)
    | _, _ => (h, false)

/-! ## The process-wide registry (static Watcher.watch, source lines 30-53)

Watchers are identified by an abstract numeric id (object identity).
An entry is: absent (path never watched), some none (the null written by the
close listener at line 49), or some (some id) for a registered watcher. -/

/-- The process-wide registry state. -/
structure Registry where
  entries : String → Option (Option Nat)
  nextId : Nat

/-- What the factory did for a call: reuse the registered watcher (setConfig
plus a re-invoked watch on the same object) or construct a new watcher. -/
inductive FactoryStep where
  | reused
  | created
deriving DecidableEq, Repr

/-- The static factory Watcher.watch (source lines 30-53): if a truthy
watcher is registered for the path it is reconfigured, re-watched and
returned; otherwise a new watcher is constructed, registered and watched. -/
def factoryWatch (r : Registry) (path : String) : Registry × Nat × FactoryStep :=
  match r.entries path with
  | some (some id) => (r, id, FactoryStep.reused)
  | _ =>
    ({ entries := fun p => if p = path then some (some r.nextId) else r.entries p,
       nextId := r.nextId + 1 }, r.nextId, FactoryStep.created)

/-! ## The per-path watcher (class Watcher, source lines 93-845)

A watcher node carries the instance fields of the class and the map of
child watchers, which makes it a tree. Event emission is modeled by an
explicit event list; the filesystem, the ignore oracle and the two OS
watch backends are an oracle record FS. Runtime type errors of the
JavaScript code and fuel exhaustion of the model are Except errors. -/

/-- The watcher state field (source lines 110-113). -/
inductive NState where
  | pending
  | active
  | closed
  | deleted
deriving DecidableEq, Repr

/-- The two watch methods (source line 159). -/
inductive Method where
  | watch
  | watchFile
deriving DecidableEq, Repr

/-- The close reasons that appear in the source: undefined (close called
with no argument, line 820), deleted, failure, and child failure. -/
inductive Reason where
  | unspecified
  | deleted
  | failure
  | childFailure
deriving DecidableEq, Repr

/-- The change event kinds (source lines 331-334). -/
inductive ChangeType where
  | update
  | create
  | delete
deriving DecidableEq, Repr

/-- An emitted event. The first String of each constructor is the path of
the emitting watcher. log collapses the log level and the message text into
one tag; watching carries the error argument of the completion (none for
success, a list of failure messages otherwise); errorEv is the error event
emitted by the default listener completion (source lines 346-350). -/
inductive Ev where
  | log (path msg : String)
  | change (kind : ChangeType) (path : String) (current previous : Option Stat)
  | closeEv (path : String) (reason : Reason)
  | watching (path : String) (err : Option (List String))
  | errorEv (path : String) (msg : String)
deriving DecidableEq, Repr

/-- True exactly for an update change event. -/
def Ev.isUpdateChange : Ev → Bool
  | Ev.change ChangeType.update _ _ _ => true
  | _ => false

/-- True when no event of the list is an update change event. -/
def noUpdateEvents (evs : List Ev) : Bool :=
  evs.all (fun e => !(Ev.isUpdateChange e))

/-- The scalar instance fields of a watcher (source lines 97-121 and the
config fields the model needs: preferredMethods). hasTimeout models
listenerTimeout being non-null, hasTasks models listenerTasks being
non-null (a pending debounced batch). -/
structure NodeData where
  path : String
  stat : Option Stat
  state : NState
  method : Option Method
  fswatcher : Bool
  hasTimeout : Bool
  hasTasks : Bool
  prefMethods : List Method
deriving Repr

/-- A watcher node: instance fields plus the children map. A children entry
value of none models the reserved sentinel `false` (source line 489);
some models a child watcher object. An absent key models a deleted entry. -/
inductive Node : Type where
  | mk (data : NodeData) (children : List (String × Option Node))

/-- The children map type. -/
abbrev Children := List (String × Option Node)

def Node.data : Node → NodeData
  | Node.mk d _ => d

def Node.children : Node → Children
  | Node.mk _ cs => cs

def Node.path (n : Node) : String := n.data.path

def Node.stat (n : Node) : Option Stat := n.data.stat

def Node.state (n : Node) : NState := n.data.state

def Node.method (n : Node) : Option Method := n.data.method

def Node.prefMethods (n : Node) : List Method := n.data.prefMethods

/-- Lookup of a children map entry: none models an absent key, some none the
reserved sentinel, some (some c) a child watcher. -/
def lookupChild (cs : Children) (k : String) : Option (Option Node) :=
  match cs.find? (fun p => p.1 == k) with
  | some p => some p.2
  | none => none

/-- `delete children[k]` (the once close handler at line 621). -/
def removeChild (cs : Children) (k : String) : Children :=
  cs.filter (fun p => p.1 != k)

/-- `children[k] = v`. -/
def setChild (cs : Children) (k : String) (v : Option Node) : Children :=
  if (cs.find? (fun p => p.1 == k)).isSome then
    cs.map (fun p => if p.1 == k then (k, v) else p)
  else
    cs ++ [(k, v)]

/-- JavaScript string coercion of a children map VALUE used as an object
key. The eachr callback at source line 542 binds its single parameter to
the entry value (eachr passes value first, key second, as every other
eachr call of the file shows), so close passes the child VALUE to
closeChild, where it is coerced to a property key: a watcher object
stringifies to [object Object], the sentinel false to the string false. -/
def coerceKey : Option Node → String
  | some _ => "[object Object]"
  | none => "false"

/-- Runtime errors of the embedding: typeError models a thrown JavaScript
TypeError; fuelOut reports model fuel exhaustion and corresponds to no
source behavior. -/
inductive JsErr where
  | typeError
  | fuelOut
deriving DecidableEq, Repr

/-- The environment oracle: filesystem queries, the ignore oracle, and the
outcome of binding each OS watch backend (none means the bind succeeds,
some e the bind error message). -/
structure FS where
  pathExists : String → Bool
  stat : String → Option Stat
  readdir : String → Option (List String)
  ignored : String → Bool
  bindErr : Method → Option String

/-- Watcher.prototype.close (source lines 531-575). Fuel bounds the
recursion depth through child closes. The events are, in order: the close
debug log, the events of the child loop, the reason specific events
(the delete change event for reason deleted, emitted with the stat held
before stat is nulled by the caller; the warn log for reason failure),
and finally the close event. The child loop iterates the children map with
eachr, whose callback receives the entry VALUE; that value is passed to
closeChild as the relative path, hence the coerceKey lookup. -/
def closeN : Nat → Reason → Node → Except JsErr (Node × List Ev)
  | fuel, reason, n =>
    if n.state ≠ NState.active then
      Except.ok (n, [])
    else
      match fuel with
      | 0 => Except.error JsErr.fuelOut
      | fuel' + 1 =>
        let keys := n.children.map (fun p => coerceKey p.2)
        let folded := keys.foldl
          (fun acc key =>
            match acc with
            | Except.error e => Except.error e
            | Except.ok (nAcc, evsAcc) =>
              -- inlined closeChild (source lines 578-592)
              match lookupChild nAcc.children key with
              | none => Except.ok (nAcc, evsAcc)
              | some none => Except.error JsErr.typeError
              | some (some child) =>
                match closeN fuel' reason child with
                | Except.error e => Except.error e
                | Except.ok (child1, evs) =>
                  if child.state = NState.active then
                    Except.ok (Node.mk nAcc.data (removeChild nAcc.children key),
                      evsAcc ++ evs)
                  else
                    Except.ok (Node.mk nAcc.data (setChild nAcc.children key (some child1)),
                      evsAcc ++ evs))
          (Except.ok (n, []))
        match folded with
        | Except.error e => Except.error e
        | Except.ok (n1, evsKids) =>
          let d1 := n1.data
          let d2 := { d1 with fswatcher := false }
          if reason = Reason.deleted then
            Except.ok (Node.mk { d2 with state := NState.deleted } n1.children,
              [Ev.log d1.path "close"] ++ evsKids
                ++ [Ev.change ChangeType.delete d1.path none d1.stat,
                    Ev.closeEv d1.path reason])
          else if reason = Reason.failure then
            Except.ok (Node.mk { d2 with state := NState.closed } n1.children,
              [Ev.log d1.path "close"] ++ evsKids
                ++ [Ev.log d1.path "warn failed to watch", Ev.closeEv d1.path reason])
          else
            Except.ok (Node.mk { d2 with state := NState.closed } n1.children,
              [Ev.log d1.path "close"] ++ evsKids ++ [Ev.closeEv d1.path reason])

/-- Watcher.prototype.closeChild (source lines 578-592), called with an
actual relative path (as the listener deletion scan does at line 482).
The outer check is `children[key] != null`, which the sentinel false passes;
the inner guard is `if ( watchr )` where watchr is the always-truthy this,
so for a sentinel entry `false.close(reason)` is evaluated and throws a
TypeError. When a real child watcher closes, its close event fires the once
handler installed by watchChild (line 620) which deletes the map entry; a
child whose state is not active emits nothing and stays registered. Bubbled
re-emission of child change and log events on the parent channel is
represented by the single shared event stream. -/
def closeChildN (fuel : Nat) (reason : Reason) (n : Node) (key : String) :
    Except JsErr (Node × List Ev) :=
  match lookupChild n.children key with
  | none => Except.ok (n, [])
  | some none => Except.error JsErr.typeError
  | some (some child) =>
    match closeN fuel reason child with
    | Except.error e => Except.error e
    | Except.ok (child1, evs) =>
      if child.state = NState.active then
        Except.ok (Node.mk n.data (removeChild n.children key), evs)
      else
        Except.ok (Node.mk n.data (setChild n.children key (some child1)), evs)

/-- Watcher.prototype.watchSelf (source lines 760-792): attempt the
preferred methods in order, accumulating the bind error of each failed
method; on success report the chosen method, on exhaustion report the
accumulated error list. watchMethod (lines 708-754) is abstracted by the
bindErr oracle of FS. -/
def watchSelfGo (fs : FS) : List Method → List String → Except (List String) Method
  | [], errors => Except.error errors
  | m :: rest, errors =>
    match fs.bindErr m with
    | some e => watchSelfGo fs rest (errors ++ [e])
    | none => Except.ok m

/-- A freshly constructed watcher after setConfig: the constructor state
(source lines 93-180) with the path and the inherited preferred methods. -/
def freshNode (path : String) (prefMethods : List Method) : Node :=
  Node.mk { path := path, stat := none, state := NState.pending, method := none,
            fswatcher := false, hasTimeout := false, hasTasks := false,
            prefMethods := prefMethods } []

/-- Watcher.prototype.watch (source lines 804-844) together with the
watchChildren directory scan (lines 662-704) and the watchChild spawn
(lines 601-656) it triggers. The result carries the node, the emitted
events, and the error argument delivered to the watching completion.
If the watcher is active and no reset is requested, the call completes
immediately. Otherwise: close with no reason, log, getStat (the cached
stat if present, else the oracle), watchSelf with the fallback chain, and
for a directory the child scan, where each new child is spawned through
the factory (modeled as a fresh construction, the path being newly
discovered) and watched recursively. A children error closes the watcher
with reason child failure and is still reported to the completion. -/
def watchStep : Nat → FS → Bool → Node → Except JsErr (Node × List Ev × Option (List String))
  | fuel, fs, reset, n =>
    if n.state = NState.active ∧ reset = false then
      Except.ok (n, [Ev.watching n.path none], none)
    else
      match fuel with
      | 0 => Except.error JsErr.fuelOut
      | fuel' + 1 =>
        match closeN fuel Reason.unspecified n with
        | Except.error e => Except.error e
        | Except.ok (n1, evsC) =>
          let evs0 := evsC ++ [Ev.log n1.path "watch init"]
          match (match n1.stat with | some st => some st | none => fs.stat n1.path) with
          | none =>
            Except.ok (n1, evs0 ++ [Ev.watching n1.path (some ["stat error"])],
              some ["stat error"])
          | some st =>
            let n2 := Node.mk { n1.data with stat := some st } n1.children
            match watchSelfGo fs n2.prefMethods [] with
            | Except.error errs =>
              -- no watch methods left to try, failures are: errors
              let agg := "no watch methods left to try" :: errs
              Except.ok (n2, evs0 ++ [Ev.watching n2.path (some agg)], some agg)
            | Except.ok m =>
              let d3 := { n2.data with
                          method := some m, state := NState.active,
                          fswatcher := decide (m = Method.watch) }
              let n3 := Node.mk d3 n2.children
              match n3.stat with
              | none => Except.error JsErr.typeError
              | some st2 =>
                if st2.kind = FileKind.directory then
                  match fs.readdir n3.path with
                  | none =>
                    match closeN fuel Reason.childFailure n3 with
                    | Except.error e => Except.error e
                    | Except.ok (n4, evsC2) =>
                      Except.ok (n4, evs0 ++ evsC2
                        ++ [Ev.log n4.path "watch done",
                            Ev.watching n4.path (some ["scandir error"])],
                        some ["scandir error"])
                  | some names =>
                    let keep := names.filter
                      (fun name => !(fs.ignored (n3.path ++ "/" ++ name)))
                    let folded := keep.foldl
                      (fun acc name =>
                        match acc with
                        | Except.error e => Except.error e
                        | Except.ok (nA, evsA, some err) => Except.ok (nA, evsA, some err)
                        | Except.ok (nA, evsA, none) =>
                          -- the scandir action skips once the watcher is not active
                          if nA.state ≠ NState.active then
                            Except.ok (nA, evsA, none)
                          else
                            match lookupChild nA.children name with
                            | some (some _) => Except.ok (nA, evsA, none)
                            | _ =>
                              match watchStep fuel' fs false
                                  (freshNode (nA.path ++ "/" ++ name) nA.prefMethods) with
                              | Except.error e => Except.error e
                              | Except.ok (child, evsS, errS) =>
                                Except.ok
                                  (Node.mk nA.data (setChild nA.children name (some child)),
                                   evsA ++ evsS, errS))
                      (Except.ok (n3, [], none))
                    match folded with
                    | Except.error e => Except.error e
                    | Except.ok (n4, evsK, some err) =>
                      match closeN fuel Reason.childFailure n4 with
                      | Except.error e => Except.error e
                      | Except.ok (n5, evsC2) =>
                        Except.ok (n5, evs0 ++ evsK ++ evsC2
                          ++ [Ev.log n5.path "watch done",
                              Ev.watching n5.path (some err)], some err)
                    | Except.ok (n4, evsK, none) =>
                      Except.ok (n4, evs0 ++ evsK
                        ++ [Ev.log n4.path "watch done", Ev.watching n4.path none], none)
                else
                  Except.ok (n3, evs0
                    ++ [Ev.log n3.path "watch done", Ev.watching n3.path none], none)

/-- The spawn of a new child watcher through the static factory
(watchChild, source lines 613-652): a fresh watcher is constructed for the
newly discovered path with the inherited configuration and watched. -/
def spawnN (fuel : Nat) (fs : FS) (prefM : List Method) (path : String) :
    Except JsErr (Node × List Ev × Option (List String)) :=
  watchStep fuel fs false (freshNode path prefM)

/-- The deletion scan of the listener group (source lines 466-483):
for each children entry whose relative path is missing from the fresh
directory listing, skip it when ignored, otherwise log and closeChild with
reason deleted, using the actual relative path this time. The map is
threaded through the scan, as closeChild removes closed entries. -/
def deletionScan (fuel : Nat) (fs : FS) (names : List String) :
    List (String × Option Node) → Node → Except JsErr (Node × List Ev)
  | [], n => Except.ok (n, [])
  | (name, _) :: rest, n =>
    if names.contains name then
      deletionScan fuel fs names rest n
    else if fs.ignored (n.path ++ "/" ++ name) then
      match deletionScan fuel fs names rest n with
      | Except.error e => Except.error e
      | Except.ok (n1, evs) => Except.ok (n1, Ev.log n.path "watch ignored delete" :: evs)
    else
      match closeChildN fuel Reason.deleted n name with
      | Except.error e => Except.error e
      | Except.ok (n1, evs1) =>
        match deletionScan fuel fs names rest n1 with
        | Except.error e => Except.error e
        | Except.ok (n2, evs2) =>
          Except.ok (n2, (Ev.log n.path "watch determined delete child" :: evs1) ++ evs2)

/-- The reservation pass of the creation scan (source lines 486-498):
each listing entry not yet present in the children map is reserved with the
sentinel before anything else can observe its absence; ignored paths are
logged and keep their reservation, the rest are queued for spawning. The
check is `children[name] != null`, which an existing sentinel passes, so
present entries of either form are skipped. Returns the updated map, the
names to spawn, and the ignore logs. -/
def reservePass (fs : FS) (base : String) :
    List String → Children → Children × List String × List Ev
  | [], cs => (cs, [], [])
  | name :: rest, cs =>
    match lookupChild cs name with
    | some _ => reservePass fs base rest cs
    | none =>
      let cs1 := setChild cs name none
      let r := reservePass fs base rest cs1
      if fs.ignored (base ++ "/" ++ name) then
        (r.1, r.2.1, Ev.log base "watch ignored create" :: r.2.2)
      else
        (r.1, name :: r.2.1, r.2.2)

/-- Scheduling a listener call on a child (source line 461): listener
creates the pending task batch and arms the debounce timer of the child;
the events of that batch fire later, when the child timer elapses. -/
def markChildBatch : Option Node → Option Node
  | some (Node.mk d cs) => some (Node.mk { d with hasTimeout := true, hasTasks := true } cs)
  | none => none

/-- The forwarded re-check of the listener group (source lines 454-464,
method watch only): for each child watcher still present on disk, forward
the detection by invoking the child listener, which arms the child batch. -/
def forwardScan (names : List String) (n : Node) : Node × List Ev :=
  (Node.mk n.data (n.children.map (fun p =>
      if names.contains p.1 && p.2.isSome then (p.1, markChildBatch p.2) else p)),
   n.children.filterMap (fun p =>
      if names.contains p.1 && p.2.isSome then
        some (Ev.log n.path "forwarding to child")
      else none))

/-- The spawn tasks of the creation scan (source lines 500-511): for each
queued name, watch the new child through the factory and then emit the
create change event with the stat of the new child watcher. An error
completes the batch with that error; the children entry is still written,
since the assignment at line 615 happens synchronously. -/
def createSpawns (fuel : Nat) (fs : FS) (prefM : List Method) (base : String) :
    List String → Children → Except JsErr (Children × List Ev × Option (List String))
  | [], cs => Except.ok (cs, [], none)
  | name :: rest, cs =>
    let full := base ++ "/" ++ name
    match spawnN fuel fs prefM full with
    | Except.error e => Except.error e
    | Except.ok (child, evsS, none) =>
      match createSpawns fuel fs prefM base rest (setChild cs name (some child)) with
      | Except.error e => Except.error e
      | Except.ok (cs2, evs2, errOpt) =>
        Except.ok (cs2, (Ev.log base "watch determined create" :: evsS)
          ++ [Ev.change ChangeType.create full child.stat none] ++ evs2, errOpt)
    | Except.ok (child, evsS, some err) =>
      Except.ok (setChild cs name (some child),
        Ev.log base "watch determined create" :: evsS, some err)

/-- Tasks two and three of the listener batch (source lines 423-517).
Task two: when statChanged of the previous and current stats is false,
log and clear the remaining tasks. Task three: a file watcher emits the
update change event; a directory watcher reads the fresh listing and runs
the deletion scan (immediate), the reservation pass, the forwarded
re-check (method watch only) and the spawn tasks. A readdir error or a
spawn error completes the batch with an error, delivered by the default
completion as an error event. -/
def batchTail (fuel : Nat) (fs : FS) (prev cur : Stat) (n : Node) :
    Except JsErr (Node × List Ev) :=
  if statChanged (some prev) (some cur) = false then
    Except.ok (n, [Ev.log n.path "watch determined same"])
  else
    match n.stat with
    | none => Except.error JsErr.typeError
    | some st =>
      if st.kind ≠ FileKind.directory then
        Except.ok (n, [Ev.log n.path "watch determined update",
                       Ev.change ChangeType.update n.path (some cur) (some prev)])
      else
        match fs.readdir n.path with
        | none => Except.ok (n, [Ev.errorEv n.path "readdir error"])
        | some names =>
          match deletionScan fuel fs names n.children n with
          | Except.error e => Except.error e
          | Except.ok (n2, evsD) =>
            let rp := reservePass fs n2.path names n2.children
            let nR := Node.mk n2.data rp.1
            let fwd := if n2.method = some Method.watch
                       then forwardScan names nR else (nR, [])
            match createSpawns fuel fs fwd.1.prefMethods fwd.1.path rp.2.1 fwd.1.children with
            | Except.error e => Except.error e
            | Except.ok (cs4, evsS, errOpt) =>
              let n4 := Node.mk fwd.1.data cs4
              match errOpt with
              | none => Except.ok (n4, evsD ++ rp.2.2 ++ fwd.2 ++ evsS)
              | some _ =>
                Except.ok (n4, evsD ++ rp.2.2 ++ fwd.2 ++ evsS
                  ++ [Ev.errorEv n4.path "watch child error"])

/-- One run of the debounced listener batch (source lines 340-523), i.e.
what happens when the catchup delay timer fires: the pending batch and
timer fields are cleared (lines 365-367) and the tasks run. Task one
(lines 379-421): when the path is gone, log, close with reason deleted,
null the stat and clear the remaining tasks; otherwise refresh the stat;
a stat error completes the batch with an error (emitted as an error event
by the default completion); when the birthtime of the fresh stat differs
from the previous stat, the watcher is rebuilt with watch reset (and the
remaining tasks still run, the source does not clear them on this path).
previousStat is the stat held when the notification arrived. -/
def runBatch (fuel : Nat) (fs : FS) (n : Node) : Except JsErr (Node × List Ev) :=
  let n0 := Node.mk { n.data with hasTimeout := false, hasTasks := false } n.children
  let previousStat := n0.stat
  let evA : List Ev := [Ev.log n0.path "watch evaluating on"]
  if fs.pathExists n0.path = false then
    match closeN fuel Reason.deleted n0 with
    | Except.error e => Except.error e
    | Except.ok (n1, evsC) =>
      Except.ok (Node.mk { n1.data with stat := none } n1.children,
        evA ++ (Ev.log n0.path "watch determined delete" :: evsC))
  else
    match fs.stat n0.path with
    | none => Except.ok (n0, evA ++ [Ev.errorEv n0.path "stat error"])
    | some cur =>
      let n1 := Node.mk { n0.data with stat := some cur } n0.children
      match previousStat with
      | none => Except.error JsErr.typeError
      | some prev =>
        if cur.birthtime ≠ prev.birthtime then
          match watchStep fuel fs true n1 with
          | Except.error e => Except.error e
          | Except.ok (n2, evsW, none) =>
            match batchTail fuel fs prev cur n2 with
            | Except.error e => Except.error e
            | Except.ok (n3, evsT) => Except.ok (n3, evA ++ evsW ++ evsT)
          | Except.ok (n2, evsW, some _) =>
            Except.ok (n2, evA ++ evsW ++ [Ev.errorEv n2.path "watch error"])
        else
          match batchTail fuel fs prev cur n1 with
          | Except.error e => Except.error e
          | Except.ok (n3, evsT) => Except.ok (n3, evA ++ evsT)

/-- The state of the node of a watchStep result. -/
def wsState (r : Except JsErr (Node × List Ev × Option (List String))) : Option NState :=
  match r with
  | Except.ok (n, _, _) => some n.state
  | Except.error _ => none

/-- The completion error of a watchStep result. -/
def wsErr (r : Except JsErr (Node × List Ev × Option (List String))) :
    Option (Option (List String)) :=
  match r with
  | Except.ok (_, _, e) => some e
  | Except.error _ => none

/-- The events of a batch result (empty for a model error). -/
def resultEvs (r : Except JsErr (Node × List Ev)) : List Ev :=
  match r with
  | Except.ok (_, evs) => evs
  | Except.error _ => []

/-- The node of a batch result. -/
def resultNode (r : Except JsErr (Node × List Ev)) : Option Node :=
  match r with
  | Except.ok (n, _) => some n
  | Except.error _ => none

/-! ## Concrete fixtures

Concrete stats, nodes, filesystems and heaps used by the counterexample
and witness theorems below. -/

/-- A file stat: the previously observed snapshot. -/
def prevF : Stat := ⟨1, 1, 5, 7, 10, 50, 420, FileKind.file⟩

/-- A file stat differing from prevF in mtime and size (same birthtime). -/
def curF : Stat := ⟨1, 1, 6, 7, 20, 50, 420, FileKind.file⟩

/-- A file stat differing from prevF only in atime and ctime. -/
def curT : Stat := ⟨9, 9, 5, 7, 10, 50, 420, FileKind.file⟩

/-- A directory stat. -/
def statD : Stat := ⟨1, 2, 3, 4, 0, 101, 493, FileKind.directory⟩

/-- A child file stat. -/
def statA : Stat := ⟨1, 2, 3, 4, 10, 100, 420, FileKind.file⟩

/-- An active child watcher of the directory /d. -/
def childA : Node :=
  Node.mk ⟨"/d/a", some statA, NState.active, some Method.watch, true, false, false,
    [Method.watch]⟩ []

/-- An active directory watcher with one active child and a pending batch. -/
def nDirPending : Node :=
  Node.mk ⟨"/d", some statD, NState.active, some Method.watch, true, true, true,
    [Method.watch]⟩ [("a", some childA)]

/-- An active directory watcher with one active child and no pending batch. -/
def nDir : Node :=
  Node.mk ⟨"/d", some statD, NState.active, some Method.watch, true, false, false,
    [Method.watch]⟩ [("a", some childA)]

/-- An active watcher whose children map holds only the reserved sentinel. -/
def nReserved : Node :=
  Node.mk ⟨"/p", some statD, NState.active, some Method.watch, true, false, false,
    [Method.watch]⟩ [("a", none)]

/-- An active file watcher with a pending debounced batch and timer. -/
def nFilePending : Node :=
  Node.mk ⟨"/f", some prevF, NState.active, some Method.watch, true, true, true,
    [Method.watch]⟩ []

/-- An active file watcher with no pending batch. -/
def nFile : Node :=
  Node.mk ⟨"/f", some prevF, NState.active, some Method.watch, true, false, false,
    [Method.watch]⟩ []

/-- A closed file watcher. -/
def nClosedF : Node :=
  Node.mk ⟨"/f", some prevF, NState.closed, none, false, false, false,
    [Method.watch]⟩ []

/-- A pending file watcher configured with both methods. -/
def nPend : Node :=
  Node.mk ⟨"/f", some prevF, NState.pending, none, false, false, false,
    [Method.watch, Method.watchFile]⟩ []

/-- A filesystem where every path is gone. -/
def fsGone : FS := ⟨fun _ => false, fun _ => none, fun _ => none, fun _ => false, fun _ => none⟩

/-- A filesystem where every path exists with stat curF and both backends bind. -/
def fsCur : FS :=
  ⟨fun _ => true, fun _ => some curF, fun _ => some [], fun _ => false, fun _ => none⟩

/-- A filesystem where every path exists with stat curT (differing from
prevF only in the time fields) and both backends bind. -/
def fsTimes : FS :=
  ⟨fun _ => true, fun _ => some curT, fun _ => some [], fun _ => false, fun _ => none⟩

/-- A filesystem where every backend bind fails. -/
def fsNoBind : FS :=
  ⟨fun _ => true, fun _ => some prevF, fun _ => some [], fun _ => false,
   fun m => some (match m with | Method.watch => "watch bind error"
                               | Method.watchFile => "watchFile bind error")⟩

/-- The empty registry. -/
def regEmpty : Registry := ⟨fun _ => none, 0⟩

/-- A one-object heap whose stat has both time keys present. -/
def heapW : Heap := [⟨some 1, some 2, 3, 4, 5, 6, 7, FileKind.file⟩]

/-! ## Helper lemmas -/

@[simp] theorem Node.data_mk (d : NodeData) (cs : Children) : (Node.mk d cs).data = d := rfl

@[simp] theorem Node.children_mk (d : NodeData) (cs : Children) :
    (Node.mk d cs).children = cs := rfl

@[simp] theorem Node.path_mk (d : NodeData) (cs : Children) : (Node.mk d cs).path = d.path := rfl

@[simp] theorem Node.stat_mk (d : NodeData) (cs : Children) : (Node.mk d cs).stat = d.stat := rfl

@[simp] theorem Node.state_mk (d : NodeData) (cs : Children) :
    (Node.mk d cs).state = d.state := rfl

@[simp] theorem Node.method_mk (d : NodeData) (cs : Children) :
    (Node.mk d cs).method = d.method := rfl

@[simp] theorem Node.prefMethods_mk (d : NodeData) (cs : Children) :
    (Node.mk d cs).prefMethods = d.prefMethods := rfl

/-- eraseTimes keeps the birthtime. -/
theorem birthtime_eraseTimes (s : Stat) : (eraseTimes s).birthtime = s.birthtime := rfl

/-- Two stats with equal comparison keys are not reported as changed. -/
theorem statChanged_false_of_eraseTimes_eq {o c : Stat} (h : eraseTimes o = eraseTimes c) :
    statChanged (some o) (some c) = false := by
  simp [statChanged, h]

/-- When every preferred method fails to bind, watchSelf accumulates every
bind error, in order, and fails with the accumulated list. -/
theorem watchSelfGo_all_fail (fs : FS) (ms : List Method) (acc : List String)
    (h : ∀ m ∈ ms, (fs.bindErr m).isSome) :
    watchSelfGo fs ms acc = Except.error (acc ++ ms.filterMap fs.bindErr) := by
  induction ms generalizing acc with
  | nil => simp [watchSelfGo]
  | cons m rest ih =>
    have hm : (fs.bindErr m).isSome := h m (List.mem_cons_self m rest)
    obtain ⟨e, he⟩ := Option.isSome_iff_exists.mp hm
    have hrest : ∀ x ∈ rest, (fs.bindErr x).isSome :=
      fun x hx => h x (List.mem_cons_of_mem m hx)
    simp [watchSelfGo, he, ih (acc ++ [e]) hrest, List.filterMap_cons]

/-- A close call on a watcher whose state is not active returns at once,
with no state change and no events. -/
theorem closeN_not_active (fuel : Nat) (reason : Reason) (n : Node)
    (h : n.state ≠ NState.active) :
    closeN fuel reason n = Except.ok (n, []) := by
  unfold closeN
  simp [h]

/-! ## Claim theorems -/

/-- Claim C1: the pure comparator statChanged returns true when exactly one
of old and current is null, false when both are null, and otherwise true
exactly when the two snapshots differ in some field other than atime and
ctime (mtime, birthtime, size, ino, mode or kind). -/
theorem statChanged_spec :
    statChanged none none = false ∧
    (∀ o : Stat, statChanged (some o) none = true) ∧
    (∀ c : Stat, statChanged none (some c) = true) ∧
    (∀ o c : Stat, statChanged (some o) (some c) = true ↔
      (o.mtime ≠ c.mtime ∨ o.birthtime ≠ c.birthtime ∨ o.size ≠ c.size ∨
       o.ino ≠ c.ino ∨ o.mode ≠ c.mode ∨ o.kind ≠ c.kind)) := by
  refine ⟨rfl, fun o => rfl, fun c => rfl, fun o c => ?_⟩
  have key : statChanged (some o) (some c) = true ↔ ¬ (eraseTimes o = eraseTimes c) := by
    simp only [statChanged, Option.isSome_some, ne_eq, not_true_eq_false, if_false]
    split
    · next heq => simp [heq]
    · next hne => simp [hne]
  rw [key]
  obtain ⟨oa, oc, om, ob, osz, oi, omo, okd⟩ := o
  obtain ⟨ca, cc, cm, cb, csz, ci, cmo, ckd⟩ := c
  simp only [eraseTimes, Stat.mk.injEq, true_and]
  tauto

/-- Deleting the atime key of the object at one address leaves every other
address unchanged. -/
theorem delAtime_frame (h : Heap) (a i : Nat) (hne : i ≠ a) :
    (delAtime h a)[i]? = h[i]? := by
  unfold delAtime
  split
  · exact List.getElem?_set_ne (Ne.symm hne)
  · rfl

/-- Deleting the ctime key of the object at one address leaves every other
address unchanged. -/
theorem delCtime_frame (h : Heap) (a i : Nat) (hne : i ≠ a) :
    (delCtime h a)[i]? = h[i]? := by
  unfold delCtime
  split
  · exact List.getElem?_set_ne (Ne.symm hne)
  · rfl

/-- Claim C10: statChanged is pure with respect to its arguments: over the
object heap model, the call leaves every pre-existing heap object unchanged
(in particular the atime and ctime keys of both argument objects are still
present afterwards), because the deletions operate on the fresh deep copies
allocated by dereferenceJSON. -/
theorem statChangedH_frame (h : Heap) (old current : Option Nat) (i : Nat)
    (hi : i < h.length) :
    ((statChangedH h old current).1)[i]? = h[i]? := by
  rcases old with _ | a <;> rcases current with _ | b
  · rfl
  · rfl
  · rfl
  · have hia : i ≠ h.length := Nat.ne_of_lt hi
    have hi1 : i < (h ++ [heapGet h a]).length := by
      simp only [List.length_append, List.length_cons, List.length_nil]
      omega
    have hib : i ≠ (h ++ [heapGet h a]).length := Nat.ne_of_lt hi1
    simp only [statChangedH, Option.isSome_some, ne_eq, not_true_eq_false, if_false]
    rw [delCtime_frame _ _ _ hib, delAtime_frame _ _ _ hib,
        delCtime_frame _ _ _ hia, delAtime_frame _ _ _ hia,
        List.getElem?_append_left hi1, List.getElem?_append_left hi]

/-- Claim C10 witness: the frame property at a concrete heap and address. -/
theorem statChangedH_frame_witness :
    0 < heapW.length ∧ ((statChangedH heapW (some 0) (some 0)).1)[0]? = heapW[0]? :=
  ⟨by decide, statChangedH_frame heapW (some 0) (some 0) 0 (by decide)⟩

/-- Claim C3: a second factory call for the same path returns the very same
registered watcher and performs the reuse path (setConfig and a re-invoked
watch), constructing nothing new and leaving the registry unchanged; and a
re-invoked watch on an active watcher completes immediately, without
closing or re-binding a backend. -/
theorem factory_dedup :
    (∀ (r : Registry) (path : String),
      factoryWatch (factoryWatch r path).1 path =
        ((factoryWatch r path).1, (factoryWatch r path).2.1, FactoryStep.reused)) ∧
    (∀ (fuel : Nat) (fs : FS) (n : Node), n.state = NState.active →
      watchStep fuel fs false n = Except.ok (n, [Ev.watching n.path none], none)) := by
  constructor
  · intro r path
    unfold factoryWatch
    cases hr : r.entries path with
    | none => simp
    | some v =>
      cases v with
      | none => simp
      | some id => simp [hr]
  · intro fuel fs n h
    unfold watchStep
    simp [h]

/-- Claim C3 witness: the dedup facts at a concrete registry and node. -/
theorem factory_dedup_witness :
    (factoryWatch (factoryWatch regEmpty "/d").1 "/d" =
      ((factoryWatch regEmpty "/d").1, (factoryWatch regEmpty "/d").2.1,
        FactoryStep.reused)) ∧
    nDir.state = NState.active ∧
    watchStep 9 fsCur false nDir = Except.ok (nDir, [Ev.watching nDir.path none], none) :=
  ⟨factory_dedup.1 regEmpty "/d", rfl, factory_dedup.2 9 fsCur nDir rfl⟩

/-- Claim C4 counterexample: a watcher in the terminal state closed is
re-activated by a later watch call (the source sets state to active in
watchSelf whenever a backend binds, and watch proceeds whenever the state
is not active), so closed is not terminal. -/
theorem closed_node_reactivated :
    nClosedF.state = NState.closed ∧
    wsState (watchStep 9 fsCur false nClosedF) = some NState.active :=
  ⟨rfl, rfl⟩

/-- Claim C4 (amended): closed and deleted are terminal for close: a close
call on a watcher in either state is a no-op that changes nothing and emits
nothing. They are not terminal under watch, which re-binds a backend and
transitions the watcher back to active. -/
theorem close_terminal_on_closed_deleted (fuel : Nat) (reason : Reason) (n : Node)
    (h : n.state = NState.closed ∨ n.state = NState.deleted) :
    closeN fuel reason n = Except.ok (n, []) := by
  apply closeN_not_active
  rcases h with h | h <;> simp [h]

/-- Claim C4 witness: terminality of close at a concrete closed watcher. -/
theorem close_terminal_witness :
    (nClosedF.state = NState.closed ∨ nClosedF.state = NState.deleted) ∧
    closeN 5 Reason.deleted nClosedF = Except.ok (nClosedF, []) :=
  ⟨Or.inl rfl, close_terminal_on_closed_deleted 5 Reason.deleted nClosedF (Or.inl rfl)⟩

/-- Claim C2: for every reconciliation batch in which the previous stat and
the refreshed stat agree on every field except possibly atime and ctime,
the batch emits no update change event: the birthtimes agree, so the
watcher is not rebuilt, and task two finds statChanged false and clears the
remaining tasks, skipping phase C. -/
theorem batch_no_update_when_equal_mod_times (fuel : Nat) (fs : FS) (d : NodeData)
    (cs : Children) (prev cur : Stat)
    (hstat : d.stat = some prev) (hex : fs.pathExists d.path = true)
    (hcur : fs.stat d.path = some cur) (heq : eraseTimes cur = eraseTimes prev) :
    (runBatch fuel fs (Node.mk d cs)).toOption.map (fun out => noUpdateEvents out.2)
      = some true := by
  have hb : cur.birthtime = prev.birthtime := by
    have h1 := congrArg Stat.birthtime heq
    simpa [eraseTimes] using h1
  have hsc : statChanged (some prev) (some cur) = false :=
    statChanged_false_of_eraseTimes_eq heq.symm
  unfold runBatch batchTail
  simp [hstat, hex, hcur, hb, hsc, noUpdateEvents, Ev.isUpdateChange]
  refine ⟨_, _, rfl, ?_⟩
  intro x hx
  simp only [List.mem_cons, List.not_mem_nil, or_false] at hx
  rcases hx with rfl | rfl <;> rfl

/-- Claim C2 witness: a concrete batch whose refreshed stat differs from
the previous stat only in atime and ctime emits no update change event. -/
theorem batch_no_update_witness :
    eraseTimes curT = eraseTimes prevF ∧
    (runBatch 9 fsTimes nFile).toOption.map (fun out => noUpdateEvents out.2) = some true :=
  ⟨by decide,
   batch_no_update_when_equal_mod_times 9 fsTimes
     ⟨"/f", some prevF, NState.active, some Method.watch, true, false, false, [Method.watch]⟩
     [] prevF curT rfl rfl rfl (by decide)⟩

/-- Claim C6 (amended): activation tries the preferred methods strictly in
order, recording each bind error; when every method fails, activation fails
with a single aggregated error listing every attempted failure in order,
delivered to the watching completion, and the watcher remains in state
pending: it does not transition to closed. -/
theorem fallback_exhaustion (fuel : Nat) (fs : FS) (d : NodeData) (cs : Children) (st : Stat)
    (hp : d.state = NState.pending) (hs : d.stat = some st)
    (hfail : ∀ m ∈ d.prefMethods, (fs.bindErr m).isSome) :
    wsState (watchStep (fuel + 1) fs false (Node.mk d cs)) = some NState.pending ∧
    wsErr (watchStep (fuel + 1) fs false (Node.mk d cs)) =
      some (some ("no watch methods left to try" :: d.prefMethods.filterMap fs.bindErr)) := by
  have hws := watchSelfGo_all_fail fs d.prefMethods [] hfail
  have hcl : closeN (fuel + 1) Reason.unspecified (Node.mk d cs)
      = Except.ok (Node.mk d cs, []) :=
    closeN_not_active _ _ _ (by simp [hp])
  unfold watchStep
  simp [hp, hs, hcl, hws, wsState, wsErr]

/-- Claim C6 counterexample: with every backend bind failing, activation at
this concrete pending watcher completes with the aggregated error, but the
watcher state stays pending; it never transitions to closed. -/
theorem exhaustion_leaves_pending :
    wsState (watchStep 9 fsNoBind false nPend) = some NState.pending ∧
    NState.pending ≠ NState.closed :=
  ⟨rfl, by decide⟩

/-- Claim C6 witness: the amended fallback behavior at a concrete watcher
whose two configured methods both fail to bind. -/
theorem fallback_exhaustion_witness :
    wsState (watchStep 9 fsNoBind false nPend) = some NState.pending ∧
    wsErr (watchStep 9 fsNoBind false nPend) =
      some (some ["no watch methods left to try", "watch bind error", "watchFile bind error"]) :=
  ⟨(fallback_exhaustion 8 fsNoBind
      ⟨"/f", some prevF, NState.pending, none, false, false, false,
        [Method.watch, Method.watchFile]⟩ [] prevF rfl rfl (by decide)).1,
   (fallback_exhaustion 8 fsNoBind
      ⟨"/f", some prevF, NState.pending, none, false, false, false,
        [Method.watch, Method.watchFile]⟩ [] prevF rfl rfl (by decide)).2⟩

/-- Claim C5 (code bug): close does not clear the pending debounce timer or
batch (the result of close still has both flags set), and the batch run
that follows does not check the state: at this concrete input the watcher
is closed, yet the later batch run emits log events and an update change
event for the closed path. -/
theorem events_after_close :
    closeN 9 Reason.unspecified nFilePending =
      Except.ok (Node.mk ⟨"/f", some prevF, NState.closed, some Method.watch, false, true, true,
        [Method.watch]⟩ [],
        [Ev.log "/f" "close", Ev.closeEv "/f" Reason.unspecified]) ∧
    runBatch 9 fsCur (Node.mk ⟨"/f", some prevF, NState.closed, some Method.watch, false, true,
        true, [Method.watch]⟩ []) =
      Except.ok (Node.mk ⟨"/f", some curF, NState.closed, some Method.watch, false, false, false,
        [Method.watch]⟩ [],
        [Ev.log "/f" "watch evaluating on", Ev.log "/f" "watch determined update",
         Ev.change ChangeType.update "/f" (some curF) (some prevF)]) :=
  ⟨rfl, rfl⟩

/-- Claim C7 (code bug): when the existence check finds the path gone, the
batch transitions the watcher to deleted, emits the single delete change
event with the non-null previous stat and skips phases B and C; but the
children are NOT closed: the close child loop passes each children map
VALUE (not its key) to closeChild, whose lookup then misses, so the active
child watcher of this concrete directory is left untouched and active. -/
theorem delete_branch_children_not_closed :
    runBatch 9 fsGone nDirPending =
      Except.ok (Node.mk ⟨"/d", none, NState.deleted, some Method.watch, false, false, false,
        [Method.watch]⟩ [("a", some childA)],
        [Ev.log "/d" "watch evaluating on", Ev.log "/d" "watch determined delete",
         Ev.log "/d" "close", Ev.change ChangeType.delete "/d" none (some statD),
         Ev.closeEv "/d" Reason.deleted]) ∧
    childA.state = NState.active :=
  ⟨rfl, rfl⟩

/-- Claim C8 (code bug): close with reason deleted on an active watcher
transitions to deleted, emits the delete change event, and emits the close
event immediately after it, and close on a non-active watcher is a no-op;
but the children are NOT first closed: the child loop passes the children
map VALUES to closeChild, so the lookup misses and the active child of
this concrete directory stays active and registered. -/
theorem close_deleted_children_not_closed :
    closeN 9 Reason.deleted nDir =
      Except.ok (Node.mk ⟨"/d", some statD, NState.deleted, some Method.watch, false, false,
        false, [Method.watch]⟩ [("a", some childA)],
        [Ev.log "/d" "close", Ev.change ChangeType.delete "/d" none (some statD),
         Ev.closeEv "/d" Reason.deleted]) ∧
    childA.state = NState.active ∧
    closeN 9 Reason.deleted (Node.mk ⟨"/d", some statD, NState.deleted, some Method.watch,
        false, false, false, [Method.watch]⟩ [("a", some childA)]) =
      Except.ok (Node.mk ⟨"/d", some statD, NState.deleted, some Method.watch, false, false,
        false, [Method.watch]⟩ [("a", some childA)], []) :=
  ⟨rfl, rfl, rfl⟩

/-- Claim C9 (code bug): closeChild on a reserved sentinel entry is NOT a
silent skip: the outer check `children[name] != null` passes for the value
false, and the inner guard tests the always-truthy watcher instance
(`watchr`) instead of the child handle, so `false.close(reason)` is
evaluated and throws a TypeError. -/
theorem closeChild_sentinel_throws :
    lookupChild nReserved.children "a" = some none ∧
    closeChildN 9 Reason.deleted nReserved "a" = Except.error JsErr.typeError :=
  ⟨rfl, rfl⟩

end Watchr
